import Mathlib

/-!
Shallow embedding of the PDF generation pipeline of
`services/pdf_generator.py` (class `GPT5PoweredPDFGenerator`).

Sections are (header, content) pairs.  The three oracle phases
(document analysis, per-section optimization, layout optimization) and the
extra recommendation call inside the conclusions builder are modelled by an
`Oracle` record of `Except Unit _` responses; `Except.error ()` stands for
any exception raised by the call (network failure, JSON parse failure).
JSON mappings with optional keys are modelled as structures whose fields are
`Option _`; an absent key is `none`.  Python `d['k']` (strict access, raises
`KeyError`) is modelled by `getKey`; `d.get('k', v)` by `Option.getD`.
The assembled reportlab story is a `List Block`; the byte-producing
`doc.build` call is the external renderer and is outside the model.
-/

namespace PdfGen

/-- One render unit of the assembled story: a styled paragraph, a spacer
(height in tenths of an inch), a page break, a table (rows of cells, header
row first) or a chart drawing (kind and surviving (label, numeric-token)
points). -/
inductive Block where
  | para (style : String) (text : String)
  | spacer (tenths : Nat)
  | pageBreak
  | table (rows : List (List String))
  | chart (kind : String) (points : List (String × String))
deriving Repr, DecidableEq

/-- Python slicing `s[:n]` on code points. -/
def pySlice (s : String) (n : Nat) : String := ⟨s.data.take n⟩

def pyTitleAux : Bool → List Char → List Char
  | _, [] => []
  | prevAlpha, c :: rest =>
    if c.isAlpha then
      (if prevAlpha then c.toLower else c.toUpper) :: pyTitleAux true rest
    else
      c :: pyTitleAux false rest

/-- Python `str.title()`: first alphabetic character of every run is
upper-cased, the rest lower-cased. -/
def pyTitle (s : String) : String := ⟨pyTitleAux false s.data⟩

/-- Models `re.search(r'(\d+(?:\.\d+)?)', s)`: the first maximal run of digits,
optionally followed by a dot and a further digit run; `none` when `s` holds
no digit (the `float(...)` call then raises and the data point is dropped). -/
def extractNumericToken (s : String) : Option String :=
  match s.data.dropWhile (fun c => ¬ c.isDigit) with
  | [] => none
  | rest =>
    let ds := rest.takeWhile Char.isDigit
    match rest.dropWhile Char.isDigit with
    | '.' :: more =>
      let fs := more.takeWhile Char.isDigit
      if fs.isEmpty then some ⟨ds⟩ else some ⟨ds ++ '.' :: fs⟩
    | _ => some ⟨ds⟩

/-- One attempted match of `\d+(?:\.\d+)?%` anchored at the head of `cs`;
returns the matched token (with the percent sign) and the remainder. -/
def matchPercentAt (cs : List Char) : Option (List Char × List Char) :=
  match cs with
  | [] => none
  | c :: _ =>
    if c.isDigit then
      let ds := cs.takeWhile Char.isDigit
      match cs.dropWhile Char.isDigit with
      | '.' :: more =>
        let fs := more.takeWhile Char.isDigit
        if fs.isEmpty then none
        else
          match more.dropWhile Char.isDigit with
          | '%' :: rest => some (ds ++ '.' :: fs ++ ['%'], rest)
          | _ => none
      | '%' :: rest => some (ds ++ ['%'], rest)
      | _ => none
    else none

/-- Models `re.sub(r'(\d+(?:\.\d+)?%)', r'<b>\1</b>', s)` as a left-to-right scan.
The fuel starts at the length of the text; every step consumes at least one
character, so the fuel never runs out. -/
def boldPercentsAux : Nat → List Char → List Char
  | 0, cs => cs
  | fuel + 1, cs =>
    match cs with
    | [] => []
    | c :: rest =>
      match matchPercentAt cs with
      | some (tok, rest2) =>
        ("<b>".data ++ tok ++ "</b>".data) ++ boldPercentsAux fuel rest2
      | none => c :: boldPercentsAux fuel rest

def boldPercents (s : String) : String := ⟨boldPercentsAux s.data.length s.data⟩

def isWordChar (c : Char) : Bool := c.isAlphanum || c = '_'

/-- Models `re.sub(r'\b(TR Band)\b', r'<i>\1</i>', s)`: the literal term with word
boundaries on both sides.  Same fuel discipline as `boldPercentsAux`. -/
def italTRBandAux : Nat → Bool → List Char → List Char
  | 0, _, cs => cs
  | fuel + 1, prevWord, cs =>
    match cs with
    | [] => []
    | c :: rest =>
      if (!prevWord) && "TR Band".data.isPrefixOf cs
          && (match cs.drop 7 with
              | [] => true
              | d :: _ => !isWordChar d) then
        ("<i>TR Band</i>".data) ++ italTRBandAux fuel true (cs.drop 7)
      else
        c :: italTRBandAux fuel (isWordChar c) rest

def italTRBand (s : String) : String := ⟨italTRBandAux s.data.length false s.data⟩

/-- Strict mapping access `d['k']`: `KeyError` when the key is absent. -/
def getKey {α : Type} (o : Option α) (k : String) : Except String α :=
  match o with
  | some a => Except.ok a
  | none => Except.error ("KeyError: " ++ k)

/-- Python list indexing `l[i]` for an `int` index: non-negative indices from
the front, negative indices from the back, `none` for `IndexError`. -/
def pyIndex {α : Type} (l : List α) (i : Int) : Option α :=
  if 0 ≤ i then l.get? i.toNat
  else if (-i).toNat ≤ l.length then l.get? (l.length - (-i).toNat) else none

/- JSON-shaped oracle payloads. -/

structure DocumentMeta where
  title : Option String := none
  subtitle : Option String := none
  domain : Option String := none
  document_type : Option String := none
  complexity_level : Option String := none
  target_audience : Option String := none
  estimated_reading_time : Option String := none
deriving Repr, DecidableEq

structure ContentIntelligence where
  main_themes : Option (List String) := none
  key_insights : Option (List String) := none
  executive_summary : Option String := none
deriving Repr, DecidableEq

structure StructureOptimization where
  optimal_section_order : Option (List Int) := none
deriving Repr, DecidableEq

structure ColorPalette where
  primary : Option String := none
  secondary : Option String := none
  accent : Option String := none
  neutral : Option String := none
deriving Repr, DecidableEq

structure TypographyHierarchy where
  h1_size : Option Int := none
  h2_size : Option Int := none
  body_size : Option Int := none
deriving Repr, DecidableEq

structure DesignSystem where
  color_palette : Option ColorPalette := none
  typography_hierarchy : Option TypographyHierarchy := none
deriving Repr, DecidableEq

structure DocIntelligence where
  document_meta : Option DocumentMeta := none
  content_intelligence : Option ContentIntelligence := none
  structure_optimization : Option StructureOptimization := none
  design_system : Option DesignSystem := none
deriving Repr, DecidableEq

structure DataPoint where
  metric : Option String := none
  value : Option String := none
  importance : Option String := none
  context : Option String := none
deriving Repr, DecidableEq

structure Subsection where
  subheader : Option String := none
  content : Option String := none
  emphasis : Option String := none
deriving Repr, DecidableEq

structure ContentStructure where
  executive_summary : Option String := none
  key_points : Option (List String) := none
  data_extracted : Option (List DataPoint) := none
  subsections : Option (List Subsection) := none
deriving Repr, DecidableEq

structure TextEmphasis where
  text : Option String := none
  format : Option String := none
deriving Repr, DecidableEq

structure FormattingEnhancements where
  text_emphasis : Option (List TextEmphasis) := none
deriving Repr, DecidableEq

structure VizPoint where
  label : Option String := none
  value : Option String := none
deriving Repr, DecidableEq

structure VizData where
  has_visualizable_data : Option Bool := none
  chart_type : Option String := none
  chart_title : Option String := none
  data_points : Option (List VizPoint) := none
deriving Repr, DecidableEq

structure SectionOptimization where
  enhanced_header : Option String := none
  content_structure : Option ContentStructure := none
  formatting_enhancements : Option FormattingEnhancements := none
  visualization_data : Option VizData := none
deriving Repr, DecidableEq

structure OptimizedSection where
  original_index : Int
  original_header : String
  original_content : String
  optimization : SectionOptimization
deriving Repr, DecidableEq

/-- Models the JSON object under keys like `title_page`; `includeFlag` is
the `include` key (a Lean keyword, so renamed). -/
structure FlagBlock where
  includeFlag : Option Bool := none
deriving Repr, DecidableEq

structure DocumentFlow where
  title_page : Option FlagBlock := none
  executive_summary : Option FlagBlock := none
  table_of_contents : Option FlagBlock := none
  conclusions : Option FlagBlock := none
  appendix : Option FlagBlock := none
deriving Repr, DecidableEq

structure PageOptimization where
  optimal_page_breaks : Option (List Int) := none
deriving Repr, DecidableEq

structure LayoutOptimization where
  document_flow : Option DocumentFlow := none
  page_optimization : Option PageOptimization := none
deriving Repr, DecidableEq

/-- Return value of `_gpt5_layout_optimization` (both branches). -/
structure EnhancedStructure where
  optimized_content : List OptimizedSection
  doc_intelligence : DocIntelligence
  layout_optimization : LayoutOptimization
deriving Repr, DecidableEq

/-- The opaque external collaborator: one response per call site.
Per-section responses are keyed by the original index handed to the call. -/
structure Oracle where
  analysisResponse : Except Unit DocIntelligence
  sectionResponse : Int → Except Unit SectionOptimization
  layoutResponse : Except Unit LayoutOptimization
  recommendationsResponse : Except Unit (List String)

/-- Trace marker for one oracle invocation. -/
inductive OracleCall where
  | analysis
  | sectionOpt (originalIndex : Int)
  | layout
  | recommendations
deriving Repr, DecidableEq

/-- The oracle that fails on every call. -/
def failOracle : Oracle :=
  { analysisResponse := Except.error ()
    sectionResponse := fun _ => Except.error ()
    layoutResponse := Except.error ()
    recommendationsResponse := Except.error () }

/-- Models `_apply_intelligent_formatting`: explicit emphasis substitutions, then
automatic bolding of percentage tokens and italicizing of the fixed term. -/
def apply_intelligent_formatting (content : String) (opt : SectionOptimization) : String :=
  let emphases := (opt.formatting_enhancements.getD {}).text_emphasis.getD []
  let enhanced := emphases.foldl
    (fun acc e =>
      let t := e.text.getD ""
      let fmt := e.format.getD "bold"
      if t ≠ "" then
        if fmt = "bold" then acc.replace t ("<b>" ++ t ++ "</b>")
        else if fmt = "italic" then acc.replace t ("<i>" ++ t ++ "</i>")
        else if fmt = "underline" then acc.replace t ("<u>" ++ t ++ "</u>")
        else acc
      else acc)
    content
  italTRBand (boldPercents enhanced)

/-- Row of the intelligent data table: metric truncated to 25 characters,
context truncated to 40 plus an ellipsis when longer. -/
def tableRow (item : DataPoint) : List String :=
  [ pySlice (item.metric.getD "Unknown") 25,
    item.value.getD "N/A",
    pyTitle (item.importance.getD "medium"),
    if (item.context.getD "").length > 40
      then pySlice (item.context.getD "") 40 ++ "..."
      else item.context.getD "" ]

/-- Models `_create_intelligent_table`: no table for an empty data-point list,
otherwise a header row plus at most five data rows. -/
def create_intelligent_table (data_extracted : List DataPoint) (_section_title : String) :
    Option Block :=
  if data_extracted.isEmpty then none
  else
    some (Block.table
      (["Metric", "Value", "Importance", "Context"] :: (data_extracted.take 5).map tableRow))

/-- Models `_create_intelligent_visualization`: gate on fewer than two raw data
points, then per-kind extraction of numeric tokens (bar: first five points,
pie: first four); the drawing is returned only when at least one point
survived extraction. -/
def create_intelligent_visualization (viz : VizData) : Option Block :=
  let chartType := viz.chart_type.getD "bar"
  let dataPoints := viz.data_points.getD []
  if dataPoints.length < 2 then none
  else if chartType = "bar" then
    let pts := (dataPoints.take 5).filterMap fun p =>
      (extractNumericToken (p.value.getD "0")).map
        fun tok => (pySlice (p.label.getD "Item") 10, tok)
    if pts.isEmpty then none else some (Block.chart "bar" pts)
  else if chartType = "pie" then
    let pts := (dataPoints.take 4).filterMap fun p =>
      (extractNumericToken (p.value.getD "0")).map
        fun tok => (pySlice (p.label.getD "Item") 8, tok)
    if pts.isEmpty then none else some (Block.chart "pie" pts)
  else none

/-- Models `_create_intelligent_title_page`; `dateStr` stands for the
`datetime.now().strftime("%B %Y")` call. -/
def create_intelligent_title_page (intel : DocIntelligence) (dateStr : String) : List Block :=
  let dm := intel.document_meta.getD {}
  let title := dm.title.getD "Professional Analysis Report"
  let subtitle := dm.subtitle.getD ""
  let subtitleBlocks := if subtitle ≠ "" then [Block.para "Subtitle" subtitle] else []
  let domain := pyTitle (dm.domain.getD "General")
  let docType := pyTitle (dm.document_type.getD "Report")
  let badgeText := docType ++ " • " ++ domain ++ " Domain"
  let readingTime := dm.estimated_reading_time.getD "10 minutes"
  let metaText := "Generated: " ++ dateStr ++ " • Est. Reading Time: " ++ readingTime
  [Block.para "DocumentTitle" title] ++ subtitleBlocks
    ++ [Block.para "Badge" badgeText, Block.para "Meta" metaText, Block.pageBreak]

/-- TOC entry list: executive summary on page 3, sections from page 4 with a
two-page increment, then recommendations and appendix; headers longer than
70 characters are shown truncated.  Strict on `enhanced_header`. -/
def tocEntriesAux (pageNum : Nat) : List OptimizedSection → Except String (List (List String))
  | [] =>
    Except.ok [["Recommendations", toString pageNum], ["Appendix", toString (pageNum + 1)]]
  | sec :: rest => do
    let eh ← getKey sec.optimization.enhanced_header "enhanced_header"
    let shown := if eh.length > 70 then pySlice eh 67 ++ "..." else eh
    let tail ← tocEntriesAux (pageNum + 2) rest
    Except.ok ([shown, toString pageNum] :: tail)

/-- Models `_create_intelligent_toc`. -/
def create_intelligent_toc (optimized_content : List OptimizedSection)
    (_intel : DocIntelligence) : Except String (List Block) := do
  let entries ← tocEntriesAux 4 optimized_content
  Except.ok
    [Block.para "SectionHeader" "Table of Contents", Block.spacer 2,
     Block.table (["Executive Summary", "3"] :: entries), Block.pageBreak]

/-- Models `_create_intelligent_executive_summary`. -/
def create_intelligent_executive_summary (intel : DocIntelligence) : List Block :=
  let ci := intel.content_intelligence.getD {}
  let execSummary := ci.executive_summary.getD ""
  let b1 := [Block.para "SectionHeader" "Executive Summary"]
  let b2 := if execSummary ≠ "" then [Block.para "ExecutiveSummary" execSummary] else []
  let keyInsights := ci.key_insights.getD []
  let b3 :=
    if keyInsights ≠ [] then
      Block.para "SubsectionHeader" "Key Findings"
        :: (keyInsights.take 5).map fun s => Block.para "KeyPoint" ("• " ++ s)
    else []
  b1 ++ b2 ++ b3 ++ [Block.spacer 3]

/-- Blocks of one subsection inside a main section. -/
def subsectionBlocks (sub : Subsection) (opt : SectionOptimization) : List Block :=
  let b1 :=
    if (sub.subheader.getD "") ≠ ""
      then [Block.para "SubsectionHeader" (sub.subheader.getD "")] else []
  let c := sub.content.getD ""
  let b2 :=
    if c ≠ "" then [Block.para "OptimizedBody" (apply_intelligent_formatting c opt)] else []
  b1 ++ b2

/-- Blocks of one optimized section: strict on `enhanced_header` and
`content_structure`, defaulting on everything below them. -/
def sectionBlocks (sec : OptimizedSection) : Except String (List Block) := do
  let opt := sec.optimization
  let eh ← getKey opt.enhanced_header "enhanced_header"
  let cs ← getKey opt.content_structure "content_structure"
  let b1 := [Block.para "SectionHeader" eh]
  let summary := cs.executive_summary.getD ""
  let b2 := if summary ≠ "" then [Block.para "ExecutiveSummary" summary, Block.spacer 1] else []
  let dataExtracted := cs.data_extracted.getD []
  let b3 :=
    if dataExtracted ≠ [] then
      match create_intelligent_table dataExtracted eh with
      | some t => [t, Block.spacer 1]
      | none => []
    else []
  let subs := cs.subsections.getD []
  let b4 := (subs.map fun sub => subsectionBlocks sub opt).flatten
  let kps := cs.key_points.getD []
  let b5 :=
    if kps ≠ [] then
      Block.para "SubsectionHeader" "Key Points:"
        :: kps.map fun p => Block.para "KeyPoint" ("• " ++ p)
    else []
  let viz := opt.visualization_data.getD {}
  let b6 :=
    if viz.has_visualizable_data.getD false ∧ viz.data_points.getD [] ≠ [] then
      match create_intelligent_visualization viz with
      | some c => [c, Block.spacer 1]
      | none => []
    else []
  Except.ok (b1 ++ b2 ++ b3 ++ b4 ++ b5 ++ b6 ++ [Block.spacer 3])

/-- Loop of `_create_optimized_sections`, threading the enumeration index
used for the forced page breaks. -/
def createOptimizedSectionsAux (pageBreaks : List Int) (i : Nat) :
    List OptimizedSection → Except String (List Block)
  | [] => Except.ok []
  | sec :: rest => do
    let bs ← sectionBlocks sec
    let pb := if (Int.ofNat i) ∈ pageBreaks then [Block.pageBreak] else []
    let tail ← createOptimizedSectionsAux pageBreaks (i + 1) rest
    Except.ok (bs ++ pb ++ tail)

/-- Models `_create_optimized_sections`. -/
def create_optimized_sections (optimized_content : List OptimizedSection)
    (layout_opt : LayoutOptimization) : Except String (List Block) :=
  createOptimizedSectionsAux
    ((layout_opt.page_optimization.getD {}).optimal_page_breaks.getD []) 0 optimized_content

/-- The hard-coded recommendations used when the recommendation call fails. -/
def fallbackRecommendations : List String :=
  [ "Implement standardized protocols based on identified best practices.",
    "Establish regular monitoring and quality assurance procedures.",
    "Provide comprehensive training to relevant stakeholders.",
    "Create documentation templates for consistent reporting.",
    "Schedule periodic reviews to assess effectiveness and make improvements." ]

def numberedRecsAux (i : Nat) : List String → List Block
  | [] => []
  | r :: rest =>
    Block.para "KeyPoint" (toString i ++ ". " ++ r) :: Block.spacer 1
      :: numberedRecsAux (i + 1) rest

/-- Models `_create_intelligent_conclusions`: page break, header, then one oracle
call for recommendations with a hard-coded fallback list. -/
def create_intelligent_conclusions (o : Oracle) (_intel : DocIntelligence) :
    List Block × List OracleCall :=
  let base := [Block.pageBreak, Block.para "SectionHeader" "Recommendations"]
  match o.recommendationsResponse with
  | Except.ok recs => (base ++ numberedRecsAux 1 recs, [OracleCall.recommendations])
  | Except.error _ =>
      (base ++ numberedRecsAux 1 fallbackRecommendations, [OracleCall.recommendations])

/-- Models `_create_intelligent_appendix`: three fixed subsections, parameterized
only by the domain and complexity metadata. -/
def create_intelligent_appendix (intel : DocIntelligence) : List Block :=
  let dm := intel.document_meta.getD {}
  let domain := dm.domain.getD "general"
  let complexity := dm.complexity_level.getD "intermediate"
  [ Block.pageBreak,
    Block.para "SectionHeader" "Appendix",
    Block.para "SubsectionHeader" "A. Data Sources and Methodology",
    Block.para "OptimizedBody"
      ("This analysis utilized advanced AI-powered content processing to extract, analyze, and synthesize "
        ++ "information from the provided source materials. Natural language processing techniques identified "
        ++ "key metrics, trends, and insights while maintaining accuracy and context."),
    Block.spacer 1,
    Block.para "SubsectionHeader" "B. Technical Specifications",
    Block.para "OptimizedBody"
      ("Document classification: " ++ pyTitle domain ++ " domain, " ++ complexity
        ++ " complexity level. "
        ++ "Content optimization applied GPT-5 powered analysis for structure, flow, and presentation enhancement. "
        ++ "Statistical significance and data visualization recommendations based on contextual content analysis."),
    Block.spacer 1,
    Block.para "SubsectionHeader" "C. Quality Assurance",
    Block.para "OptimizedBody"
      ("Content accuracy verified through cross-referencing and consistency checks. "
        ++ "Professional formatting standards applied throughout. Data visualization and "
        ++ "emphasis recommendations generated based on content significance analysis.") ]

/-- Models `_fallback_analysis`: minimal intelligence object used when the analysis
phase fails; no structure optimization and no design system. -/
def fallback_analysis (_sections : List (String × String)) : DocIntelligence :=
  { document_meta := some
      { title := some "Professional Analysis Report"
        domain := some "general"
        document_type := some "report" }
    content_intelligence := some
      { main_themes := some ["Analysis", "Findings", "Recommendations"]
        key_insights := some []
        executive_summary := some "" } }

/-- Models `_gpt5_document_analysis`: one oracle call; any failure, and any
response whose `document_meta.title` is missing (the logging line reads it
strictly inside the guarded region), falls back. -/
def gpt5_document_analysis (o : Oracle) (sections : List (String × String)) :
    DocIntelligence × List OracleCall :=
  match o.analysisResponse with
  | Except.error _ => (fallback_analysis sections, [OracleCall.analysis])
  | Except.ok intel =>
    match intel.document_meta with
    | none => (fallback_analysis sections, [OracleCall.analysis])
    | some dm =>
      match dm.title with
      | none => (fallback_analysis sections, [OracleCall.analysis])
      | some _ => (intel, [OracleCall.analysis])

/-- Loop of `_fallback_content_optimization` with its enumeration index. -/
def fallbackContentOptimizationAux (i : Nat) :
    List (String × String) → List OptimizedSection
  | [] => []
  | (header, content) :: rest =>
    { original_index := Int.ofNat i
      original_header := header
      original_content := content
      optimization :=
        { enhanced_header := some header
          content_structure := some
            { executive_summary := some ""
              key_points := some []
              data_extracted := some [] } } }
      :: fallbackContentOptimizationAux (i + 1) rest

/-- Models `_fallback_content_optimization`: identity order, original header kept,
empty structural metadata, no subsections. -/
def fallback_content_optimization (sections : List (String × String)) :
    List OptimizedSection :=
  fallbackContentOptimizationAux 0 sections

/-- The order used by `_gpt5_content_optimization`:
`doc_intelligence.get('structure_optimization', {}).get('optimal_section_order', list(range(len(sections))))`. -/
def getOptimalOrder (intel : DocIntelligence) (n : Nat) : List Int :=
  match intel.structure_optimization with
  | some so =>
    match so.optimal_section_order with
    | some l => l
    | none => (List.range n).map Int.ofNat
  | none => (List.range n).map Int.ofNat

/-- The per-section loop of `_gpt5_content_optimization`.  Indices at least
the section count are skipped before anything else happens; remaining
indices use Python list indexing (an `IndexError` aborts the phase before
the oracle call); each surviving index costs one oracle call, and the first
exception (failed call, or a response without `enhanced_header`, which the
logging line reads strictly) aborts the whole phase.  The error value
carries the oracle calls made before the abort. -/
def optimizeLoop (o : Oracle) (sections : List (String × String)) :
    List Int → Except (List OracleCall) (List OptimizedSection × List OracleCall)
  | [] => Except.ok ([], [])
  | i :: rest =>
    if i ≥ Int.ofNat sections.length then optimizeLoop o sections rest
    else
      match pyIndex sections i with
      | none => Except.error []
      | some (header, content) =>
        match o.sectionResponse i with
        | Except.error _ => Except.error [OracleCall.sectionOpt i]
        | Except.ok opt =>
          match opt.enhanced_header with
          | none => Except.error [OracleCall.sectionOpt i]
          | some _ =>
            match optimizeLoop o sections rest with
            | Except.error calls => Except.error (OracleCall.sectionOpt i :: calls)
            | Except.ok (opts, calls) =>
              Except.ok
                ({ original_index := i, original_header := header,
                   original_content := content, optimization := opt } :: opts,
                 OracleCall.sectionOpt i :: calls)

/-- Models `_gpt5_content_optimization`: run the loop, fall back wholesale on the
first exception. -/
def gpt5_content_optimization (o : Oracle) (sections : List (String × String))
    (intel : DocIntelligence) : List OptimizedSection × List OracleCall :=
  match optimizeLoop o sections (getOptimalOrder intel sections.length) with
  | Except.ok r => r
  | Except.error calls => (fallback_content_optimization sections, calls)

/-- Models `_fallback_layout_optimization`: every structural block enabled, no
forced page breaks. -/
def fallback_layout_optimization (optimized_content : List OptimizedSection)
    (intel : DocIntelligence) : EnhancedStructure :=
  { optimized_content := optimized_content
    doc_intelligence := intel
    layout_optimization :=
      { document_flow := some
          { title_page := some { includeFlag := some true }
            executive_summary := some { includeFlag := some true }
            table_of_contents := some { includeFlag := some true }
            conclusions := some { includeFlag := some true }
            appendix := some { includeFlag := some true } }
        page_optimization := some { optimal_page_breaks := some [] } } }

/-- Models `_gpt5_layout_optimization`: the prompt reads every optimized section's
`enhanced_header` strictly before the call, so a missing header falls back
without calling; otherwise one oracle call, falling back on failure. -/
def gpt5_layout_optimization (o : Oracle) (optimized_content : List OptimizedSection)
    (intel : DocIntelligence) : EnhancedStructure × List OracleCall :=
  if optimized_content.all fun s => s.optimization.enhanced_header.isSome then
    match o.layoutResponse with
    | Except.error _ => (fallback_layout_optimization optimized_content intel, [OracleCall.layout])
    | Except.ok lo =>
      ({ optimized_content := optimized_content, doc_intelligence := intel,
         layout_optimization := lo }, [OracleCall.layout])
  else (fallback_layout_optimization optimized_content intel, [])

/-- The seven styles `_setup_intelligent_styles` adds to the shared
stylesheet, in source order. -/
def addedStyleNames : List String :=
  ["DocumentTitle", "SectionHeader", "SubsectionHeader", "OptimizedBody",
   "ExecutiveSummary", "KeyPoint", "TOCEntry"]

structure Colors where
  primary : String
  secondary : String
  accent : String
  neutral : String
  text : String
deriving Repr, DecidableEq

/-- Models `_setup_intelligent_styles`: overwrites `self.colors` and adds the seven
named styles to the instance's stylesheet (in-place `self.styles.add`). -/
def setup_intelligent_styles (intel : DocIntelligence) (styles : List String) :
    List String × Colors :=
  let ds := intel.design_system.getD {}
  let cp := ds.color_palette.getD {}
  (styles ++ addedStyleNames,
   { primary := cp.primary.getD "#2E4053"
     secondary := cp.secondary.getD "#5DADE2"
     accent := cp.accent.getD "#F39C12"
     neutral := cp.neutral.getD "#F8F9FA"
     text := "#2C3E50" })

/-- Models `_build_optimized_document`: title page gated by a strict flag chain,
unconditional TOC, then executive summary, main sections, conclusions (with
its oracle call) and appendix, each remaining block gated by its own strict
flag chain.  A `KeyError` anywhere aborts the build. -/
def build_optimized_document (o : Oracle) (es : EnhancedStructure)
    (intel : DocIntelligence) (dateStr : String) :
    Except String (List Block) × List OracleCall :=
  let r : Except String (List Block × List OracleCall) := do
    let df ← getKey es.layout_optimization.document_flow "document_flow"
    let tp ← getKey df.title_page "title_page"
    let tpInc ← getKey tp.includeFlag "include"
    let s1 := if tpInc then create_intelligent_title_page intel dateStr else []
    let s2 ← create_intelligent_toc es.optimized_content intel
    let esFlag ← getKey df.executive_summary "executive_summary"
    let esInc ← getKey esFlag.includeFlag "include"
    let s3 := if esInc then create_intelligent_executive_summary intel else []
    let s4 ← create_optimized_sections es.optimized_content es.layout_optimization
    let cFlag ← getKey df.conclusions "conclusions"
    let cInc ← getKey cFlag.includeFlag "include"
    let s5 := if cInc then create_intelligent_conclusions o intel else ([], [])
    let aFlag ← getKey df.appendix "appendix"
    let aInc ← getKey aFlag.includeFlag "include"
    let s6 := if aInc then create_intelligent_appendix intel else []
    Except.ok (s1 ++ s2 ++ s3 ++ s4 ++ s5.1 ++ s6, s5.2)
  match r with
  | Except.ok (blocks, calls) => (Except.ok blocks, calls)
  | Except.error e => (Except.error e, [])

/-- Result of one `generate_pdf` call: the story (or the wrapped fatal
error), the stylesheet state after the call, and the oracle call trace. -/
structure GenResult where
  result : Except String (List Block)
  styles : List String
  calls : List OracleCall
deriving Repr

/-- Models `generate_pdf`: the five phases in order.  Phase exceptions are absorbed
by the per-phase fallbacks; an exception escaping document assembly is
wrapped and re-raised.  `styles0` is the stylesheet held by the generator
instance when the call starts. -/
def generate_pdf (o : Oracle) (sections : List (String × String))
    (styles0 : List String) (dateStr : String) : GenResult :=
  let p1 := gpt5_document_analysis o sections
  let intel := p1.1
  let p2 := gpt5_content_optimization o sections intel
  let optimized_content := p2.1
  let p3 := gpt5_layout_optimization o optimized_content intel
  let es := p3.1
  let st := setup_intelligent_styles intel styles0
  let p5 := build_optimized_document o es intel dateStr
  { result :=
      match p5.1 with
      | Except.ok story => Except.ok story
      | Except.error e => Except.error ("GPT-5 PDF generation failed: " ++ e)
    styles := st.1
    calls := p1.2 ++ p2.2 ++ p3.2 ++ p5.2 }

/-- A section optimization that document assembly can render without a
`KeyError`: both strictly-read keys are present. -/
def wellFormedOpt (s : OptimizedSection) : Bool :=
  s.optimization.enhanced_header.isSome && s.optimization.content_structure.isSome

/-- A layout plan whose five structural flags are present booleans (the TOC
entry and page optimization are left free). -/
def flagsLayout (tpB esB cB aB : Bool) (tocF : Option FlagBlock)
    (po : Option PageOptimization) : LayoutOptimization :=
  { document_flow := some
      { title_page := some { includeFlag := some tpB }
        executive_summary := some { includeFlag := some esB }
        table_of_contents := tocF
        conclusions := some { includeFlag := some cB }
        appendix := some { includeFlag := some aB } }
    page_optimization := po }

/-- Erase the stored original content of an optimized section, keeping
everything the assembler reads. -/
def scrubContent (s : OptimizedSection) : OptimizedSection :=
  { s with original_content := "" }

/-- The in-range test of the reorder loop: `i < len(sections)` (indices at
least the length are skipped). -/
def inRange (n : Nat) : Int → Bool := fun i => decide (i < Int.ofNat n)

/-- Oracle whose layout call parses as a mapping with no keys at all; every
other call fails. -/
def c2Oracle : Oracle :=
  { analysisResponse := Except.error ()
    sectionResponse := fun _ => Except.error ()
    layoutResponse := Except.ok {}
    recommendationsResponse := Except.error () }

/-- Oracle whose per-section calls always succeed with a well-formed
optimization; analysis, layout and recommendations fail. -/
def okSectionOracle : Oracle :=
  { analysisResponse := Except.error ()
    sectionResponse := fun _ => Except.ok
      { enhanced_header := some "Enhanced", content_structure := some {} }
    layoutResponse := Except.error ()
    recommendationsResponse := Except.error () }

/-- All-success oracle: analysis returns a titled intelligence object,
every per-section call succeeds, the layout call returns a full flag set
with conclusions enabled, and the recommendations call succeeds. -/
def c7Oracle : Oracle :=
  { analysisResponse := Except.ok { document_meta := some { title := some "T" } }
    sectionResponse := fun _ => Except.ok
      { enhanced_header := some "EH", content_structure := some {} }
    layoutResponse := Except.ok (flagsLayout true true true true
      (some { includeFlag := some true }) (some { optimal_page_breaks := some [] }))
    recommendationsResponse := Except.ok ["Adopt the proposal."] }

/-- Intelligence object with a title and a section order, as returned by a
successful analysis call. -/
def c7wIntel : DocIntelligence :=
  { document_meta := some { title := some "T" }
    structure_optimization := some { optimal_section_order := some [1, 5, 0] } }

/-- All-success oracle whose analysis response carries the order [1, 5, 0]. -/
def c7wOracle : Oracle :=
  { analysisResponse := Except.ok c7wIntel
    sectionResponse := fun _ => Except.ok
      { enhanced_header := some "EH", content_structure := some {} }
    layoutResponse := Except.ok (flagsLayout true true true true
      (some { includeFlag := some true }) (some { optimal_page_breaks := some [] }))
    recommendationsResponse := Except.ok ["R1"] }

/- Theorems. -/

theorem pySlice_length_le (s : String) (n : Nat) : (pySlice s n).length ≤ n := by
  show (s.data.take n).length ≤ n
  exact List.length_take_le n s.data

theorem pySlice_length_of_le (s : String) (n : Nat) (h : n ≤ s.length) :
    (pySlice s n).length = n := by
  show (s.data.take n).length = n
  rw [List.length_take]
  exact Nat.min_eq_left h

/-- Claim C6, counterexample: one `generate_pdf` call on a generator whose
stylesheet holds only `Normal` leaves the registry changed, so a second
call on the same instance does not observe the state the first call saw. -/
theorem c6_counterexample :
    (generate_pdf failOracle [("H", "C")] ["Normal"] "May 2025").styles ≠ ["Normal"] := by
  show ["Normal"] ++ addedStyleNames ≠ ["Normal"]
  decide

/-- Claim C6 (amended): `_setup_intelligent_styles` mutates the shared
instance stylesheet in place, appending the seven generated style names on
every `generate_pdf` call; the registry after a call is the prior registry
extended by those names, never a fresh per-request style set. -/
theorem c6_styles_mutated_in_place (o : Oracle) (sections : List (String × String))
    (styles0 : List String) (dateStr : String) :
    (generate_pdf o sections styles0 dateStr).styles = styles0 ++ addedStyleNames := rfl

/-- Claim C8, counterexample: two raw data points of which only one has a
parseable numeric value still produce a bar chart (with a single bar), so a
chart can be emitted although fewer than two points survive extraction. -/
theorem c8_counterexample :
    create_intelligent_visualization
      { chart_type := some "bar"
        data_points := some [{ label := some "A", value := some "abc" },
                             { label := some "B", value := some "10%" }] }
      = some (Block.chart "bar" [("B", "10")]) := by
  decide

/-- Claim C8 (amended): the fewer-than-two gate applies to the raw
data-point list, before extraction; among the first five (bar) or four
(pie) raw points, each point whose value string has no parseable numeric
token is dropped; no chart is emitted iff no point survives, and an emitted
bar chart has at most 5 points, an emitted pie chart at most 4 — all
without raising. -/
theorem c8_chart_renderer :
    (∀ viz : VizData, (viz.data_points.getD []).length < 2 →
        create_intelligent_visualization viz = none)
  ∧ (∀ (viz : VizData) (pts : List VizPoint),
        viz.chart_type = some "bar" → viz.data_points = some pts → 2 ≤ pts.length →
        ((create_intelligent_visualization viz = none ↔
            ∀ p ∈ pts.take 5, extractNumericToken (p.value.getD "0") = none)
         ∧ ∀ k ps, create_intelligent_visualization viz = some (Block.chart k ps) →
             k = "bar" ∧ ps.length ≤ 5))
  ∧ (∀ (viz : VizData) (pts : List VizPoint),
        viz.chart_type = some "pie" → viz.data_points = some pts → 2 ≤ pts.length →
        ((create_intelligent_visualization viz = none ↔
            ∀ p ∈ pts.take 4, extractNumericToken (p.value.getD "0") = none)
         ∧ ∀ k ps, create_intelligent_visualization viz = some (Block.chart k ps) →
             k = "pie" ∧ ps.length ≤ 4)) := by
  refine ⟨?_, ?_, ?_⟩
  · intro viz h
    simp only [create_intelligent_visualization]
    rw [if_pos h]
  · intro viz pts hct hdp hlen
    have hnot : ¬ pts.length < 2 := by omega
    constructor
    · simp only [create_intelligent_visualization, hct, hdp, Option.getD_some,
        String.reduceEq, if_true, if_false]
      rw [if_neg hnot]
      constructor
      · intro h
        by_cases he : (pts.take 5).filterMap
            (fun p => (extractNumericToken (p.value.getD "0")).map
              fun tok => (pySlice (p.label.getD "Item") 10, tok)) = []
        · intro p hp
          have := (List.filterMap_eq_nil_iff.mp he) p hp
          simpa [Option.map_eq_none] using this
        · simp [List.isEmpty_iff, he] at h
      · intro h
        have : (pts.take 5).filterMap
            (fun p => (extractNumericToken (p.value.getD "0")).map
              fun tok => (pySlice (p.label.getD "Item") 10, tok)) = [] := by
          apply List.filterMap_eq_nil_iff.mpr
          intro p hp
          simp [h p hp]
        simp [this]
    · intro k ps hres
      simp only [create_intelligent_visualization, hct, hdp, Option.getD_some,
        String.reduceEq, if_true, if_false] at hres
      rw [if_neg hnot] at hres
      by_cases he : ((pts.take 5).filterMap
          (fun p => (extractNumericToken (p.value.getD "0")).map
            fun tok => (pySlice (p.label.getD "Item") 10, tok))).isEmpty
      · rw [if_pos he] at hres; exact absurd hres (by simp)
      · rw [if_neg he] at hres
        have hk : k = "bar" ∧ ps = (pts.take 5).filterMap
            (fun p => (extractNumericToken (p.value.getD "0")).map
              fun tok => (pySlice (p.label.getD "Item") 10, tok)) := by
          have := hres
          injection this with h1
          injection h1 with hk hps
          exact ⟨hk.symm, hps.symm⟩
        refine ⟨hk.1, ?_⟩
        rw [hk.2]
        calc ((pts.take 5).filterMap _).length ≤ (pts.take 5).length :=
              List.length_filterMap_le _ _
          _ ≤ 5 := List.length_take_le 5 pts
  · intro viz pts hct hdp hlen
    have hnot : ¬ pts.length < 2 := by omega
    constructor
    · simp only [create_intelligent_visualization, hct, hdp, Option.getD_some,
        String.reduceEq, if_true, if_false]
      rw [if_neg hnot]
      constructor
      · intro h
        by_cases he : (pts.take 4).filterMap
            (fun p => (extractNumericToken (p.value.getD "0")).map
              fun tok => (pySlice (p.label.getD "Item") 8, tok)) = []
        · intro p hp
          have := (List.filterMap_eq_nil_iff.mp he) p hp
          simpa [Option.map_eq_none] using this
        · simp [List.isEmpty_iff, he] at h
      · intro h
        have : (pts.take 4).filterMap
            (fun p => (extractNumericToken (p.value.getD "0")).map
              fun tok => (pySlice (p.label.getD "Item") 8, tok)) = [] := by
          apply List.filterMap_eq_nil_iff.mpr
          intro p hp
          simp [h p hp]
        simp [this]
    · intro k ps hres
      simp only [create_intelligent_visualization, hct, hdp, Option.getD_some,
        String.reduceEq, if_true, if_false] at hres
      rw [if_neg hnot] at hres
      by_cases he : ((pts.take 4).filterMap
          (fun p => (extractNumericToken (p.value.getD "0")).map
            fun tok => (pySlice (p.label.getD "Item") 8, tok))).isEmpty
      · rw [if_pos he] at hres; exact absurd hres (by simp)
      · rw [if_neg he] at hres
        have hk : k = "pie" ∧ ps = (pts.take 4).filterMap
            (fun p => (extractNumericToken (p.value.getD "0")).map
              fun tok => (pySlice (p.label.getD "Item") 8, tok)) := by
          have := hres
          injection this with h1
          injection h1 with hk hps
          exact ⟨hk.symm, hps.symm⟩
        refine ⟨hk.1, ?_⟩
        rw [hk.2]
        calc ((pts.take 4).filterMap _).length ≤ (pts.take 4).length :=
              List.length_filterMap_le _ _
          _ ≤ 4 := List.length_take_le 4 pts

/-- Claim C8, witness: the amended theorem applied to a one-point list (no
chart), and to a three-point bar list with values 10%, abc, 20% (a chart
with exactly the two parseable points). -/
theorem c8_witness :
    create_intelligent_visualization { data_points := some [{ value := some "1" }] } = none
  ∧ create_intelligent_visualization
      { chart_type := some "bar"
        data_points := some [{ label := some "a", value := some "10%" },
                             { label := some "b", value := some "abc" },
                             { label := some "c", value := some "20%" }] } ≠ none := by
  constructor
  · exact c8_chart_renderer.1 { data_points := some [{ value := some "1" }] } (by decide)
  · have h := (c8_chart_renderer.2.1
      { chart_type := some "bar"
        data_points := some [{ label := some "a", value := some "10%" },
                             { label := some "b", value := some "abc" },
                             { label := some "c", value := some "20%" }] }
      [{ label := some "a", value := some "10%" },
       { label := some "b", value := some "abc" },
       { label := some "c", value := some "20%" }] rfl rfl (by decide)).1
    intro hnone
    have := h.mp hnone
    have h10 := this { label := some "a", value := some "10%" } (by decide)
    simp [extractNumericToken] at h10

/-- Claim C9: the table renderer returns no table exactly on an empty
data-point list; otherwise it emits a header row plus `min 5 n` data rows
(so exactly 5 for 8 or more points), and in every data row the metric cell
is truncated to at most 25 characters and the context cell is either kept
(at most 40 characters) or truncated to 40 characters plus an ellipsis. -/
theorem c9_table_renderer (data : List DataPoint) (title : String) :
    (create_intelligent_table data title = none ↔ data = [])
  ∧ (data ≠ [] →
      ∃ rows, create_intelligent_table data title
          = some (Block.table (["Metric", "Value", "Importance", "Context"] :: rows))
        ∧ rows.length = min 5 data.length
        ∧ (8 ≤ data.length → rows.length = 5)
        ∧ ∀ row ∈ rows, ∃ m v imp c, row = [m, v, imp, c] ∧ m.length ≤ 25
            ∧ (c.length ≤ 40 ∨ ∃ c0, c0.length = 40 ∧ c = c0 ++ "...")) := by
  constructor
  · constructor
    · intro h
      by_cases hd : data = []
      · exact hd
      · rw [create_intelligent_table, if_neg (by simpa [List.isEmpty_iff] using hd)] at h
        exact absurd h (by simp)
    · intro h
      rw [create_intelligent_table, if_pos (by simp [h])]
  · intro hne
    refine ⟨(data.take 5).map tableRow, ?_, ?_, ?_, ?_⟩
    · rw [create_intelligent_table, if_neg (by simpa [List.isEmpty_iff] using hne)]
    · simp [List.length_take]
    · intro h8
      simp only [List.length_map, List.length_take]
      omega
    · intro row hrow
      simp only [List.mem_map] at hrow
      obtain ⟨item, _, hitem⟩ := hrow
      refine ⟨pySlice (item.metric.getD "Unknown") 25, item.value.getD "N/A",
        pyTitle (item.importance.getD "medium"),
        (if (item.context.getD "").length > 40
          then pySlice (item.context.getD "") 40 ++ "..."
          else item.context.getD ""), hitem.symm, pySlice_length_le _ _, ?_⟩
      by_cases hc : (item.context.getD "").length > 40
      · right
        refine ⟨pySlice (item.context.getD "") 40, pySlice_length_of_le _ _ (by omega), ?_⟩
        rw [if_pos hc]
      · left
        rw [if_neg hc]
        omega

/-- Claim C9, witness: eight anonymous data points give a table with
exactly five data rows; the empty list gives no table. -/
theorem c9_witness :
    (∃ rows, create_intelligent_table (List.replicate 8 ({} : DataPoint)) "S"
        = some (Block.table (["Metric", "Value", "Importance", "Context"] :: rows))
      ∧ rows.length = 5)
  ∧ create_intelligent_table [] "S" = none := by
  constructor
  · obtain ⟨rows, h1, _, h3, _⟩ :=
      (c9_table_renderer (List.replicate 8 ({} : DataPoint)) "S").2 (by decide)
    exact ⟨rows, h1, h3 (by decide)⟩
  · exact (c9_table_renderer [] "S").1.mpr rfl

theorem exceptBindOk {ε α β : Type} (a : α) (f : α → Except ε β) :
    (Except.ok a : Except ε α) >>= f = f a := rfl

theorem exceptBindErr {ε α β : Type} (e : ε) (f : α → Except ε β) :
    (Except.error e : Except ε α) >>= f = Except.error e := rfl

theorem fallbackAux_all_wf (l : List (String × String)) :
    ∀ i, (fallbackContentOptimizationAux i l).all wellFormedOpt = true := by
  induction l with
  | nil => intro i; rfl
  | cons p rest ih =>
    intro i
    obtain ⟨h, c⟩ := p
    simp only [fallbackContentOptimizationAux, List.all_cons, ih (i + 1), Bool.and_true]
    rfl

theorem fallbackAux_map_content (l : List (String × String)) :
    ∀ i, (fallbackContentOptimizationAux i l).map OptimizedSection.original_content
      = l.map Prod.snd := by
  induction l with
  | nil => intro i; rfl
  | cons p rest ih =>
    intro i
    obtain ⟨h, c⟩ := p
    simp [fallbackContentOptimizationAux, ih (i + 1)]

theorem fallbackAux_map_index (l : List (String × String)) :
    ∀ i, (fallbackContentOptimizationAux i l).map OptimizedSection.original_index
      = (List.range' i l.length).map Int.ofNat := by
  induction l with
  | nil => intro i; rfl
  | cons p rest ih =>
    intro i
    obtain ⟨h, c⟩ := p
    simp only [fallbackContentOptimizationAux, List.map_cons, List.length_cons,
      List.range'_succ]
    rw [ih (i + 1)]

theorem fallbackAux_scrub (l : List (String × String)) :
    ∀ i, fallbackContentOptimizationAux i (l.map fun s => (s.1, ""))
      = (fallbackContentOptimizationAux i l).map scrubContent := by
  induction l with
  | nil => intro i; rfl
  | cons p rest ih =>
    intro i
    obtain ⟨h, c⟩ := p
    simp only [List.map_cons, fallbackContentOptimizationAux, ih (i + 1)]
    rfl

theorem tocEntriesAux_ok_of_wf (l : List OptimizedSection)
    (hwf : l.all (fun s => s.optimization.enhanced_header.isSome) = true) :
    ∀ p, ∃ entries, tocEntriesAux p l = Except.ok entries := by
  induction l with
  | nil => intro p; exact ⟨_, rfl⟩
  | cons s rest ih =>
    intro p
    simp only [List.all_cons, Bool.and_eq_true] at hwf
    obtain ⟨eh, heh⟩ := Option.isSome_iff_exists.mp hwf.1
    obtain ⟨tail, htail⟩ := ih hwf.2 (p + 2)
    refine ⟨[(if eh.length > 70 then pySlice eh 67 ++ "..." else eh), toString p] :: tail, ?_⟩
    simp only [tocEntriesAux, heh, getKey, exceptBindOk, htail]

theorem toc_ok_of_wf (oc : List OptimizedSection)
    (hwf : oc.all wellFormedOpt = true) (intel : DocIntelligence) :
    ∃ bs, create_intelligent_toc oc intel = Except.ok bs ∧ bs ≠ [] := by
  have hh : oc.all (fun s => s.optimization.enhanced_header.isSome) = true := by
    rw [List.all_eq_true] at hwf ⊢
    intro s hs
    have := hwf s hs
    simp only [wellFormedOpt, Bool.and_eq_true] at this
    exact this.1
  obtain ⟨entries, hent⟩ := tocEntriesAux_ok_of_wf oc hh 4
  refine ⟨[Block.para "SectionHeader" "Table of Contents", Block.spacer 2,
    Block.table (["Executive Summary", "3"] :: entries), Block.pageBreak], ?_, by simp⟩
  simp only [create_intelligent_toc, hent, exceptBindOk]

theorem sectionBlocks_ok_of_wf (sec : OptimizedSection) (eh : String) (cs : ContentStructure)
    (h1 : sec.optimization.enhanced_header = some eh)
    (h2 : sec.optimization.content_structure = some cs) :
    ∃ bs, sectionBlocks sec = Except.ok bs ∧ Block.para "SectionHeader" eh ∈ bs := by
  simp only [sectionBlocks, h1, h2, getKey, exceptBindOk]
  exact ⟨_, rfl, by simp⟩

theorem createSecsAux_ok_of_wf (l : List OptimizedSection)
    (hwf : l.all wellFormedOpt = true) :
    ∀ pb i, ∃ bs, createOptimizedSectionsAux pb i l = Except.ok bs
      ∧ ∀ s ∈ l, ∀ eh, s.optimization.enhanced_header = some eh →
          Block.para "SectionHeader" eh ∈ bs := by
  induction l with
  | nil => intro pb i; exact ⟨[], rfl, by simp⟩
  | cons s rest ih =>
    intro pb i
    simp only [List.all_cons, Bool.and_eq_true, wellFormedOpt] at hwf
    obtain ⟨⟨hh, hc⟩, hrest⟩ := hwf
    obtain ⟨eh0, heh0⟩ := Option.isSome_iff_exists.mp hh
    obtain ⟨cs0, hcs0⟩ := Option.isSome_iff_exists.mp hc
    obtain ⟨bs0, h0, hmem0⟩ := sectionBlocks_ok_of_wf s eh0 cs0 heh0 hcs0
    obtain ⟨bs1, h1, hmem1⟩ := ih (by simpa [wellFormedOpt] using hrest) pb (i + 1)
    refine ⟨bs0 ++ (if (Int.ofNat i) ∈ pb then [Block.pageBreak] else []) ++ bs1, ?_, ?_⟩
    · simp only [createOptimizedSectionsAux, h0, exceptBindOk, h1]
    · intro s' hs' eh heh
      rcases List.mem_cons.mp hs' with rfl | hs'
      · rw [heh0] at heh
        injection heh with heq
        subst heq
        exact List.mem_append.mpr (Or.inl (List.mem_append.mpr (Or.inl hmem0)))
      · exact List.mem_append.mpr (Or.inr (hmem1 s' hs' eh heh))

theorem conclusions_calls (o : Oracle) (intel : DocIntelligence) :
    (create_intelligent_conclusions o intel).2 = [OracleCall.recommendations] := by
  unfold create_intelligent_conclusions
  cases o.recommendationsResponse <;> rfl

/-- Assembly on a layout plan whose five structural flags are present
booleans: the TOC is emitted unconditionally, the other four blocks iff
their flag is true, and the conclusions oracle call happens iff the
conclusions flag is true. -/
theorem build_eq_of_flags (o : Oracle) (oc : List OptimizedSection)
    (intel intel2 : DocIntelligence) (d : String) (tpB esB cB aB : Bool)
    (tocF : Option FlagBlock) (po : Option PageOptimization)
    (hwf : oc.all wellFormedOpt = true) :
    ∃ tocBlocks secBlocks,
      create_intelligent_toc oc intel = Except.ok tocBlocks ∧ tocBlocks ≠ [] ∧
      create_optimized_sections oc (flagsLayout tpB esB cB aB tocF po)
        = Except.ok secBlocks ∧
      (∀ s ∈ oc, ∀ eh, s.optimization.enhanced_header = some eh →
        Block.para "SectionHeader" eh ∈ secBlocks) ∧
      build_optimized_document o
          { optimized_content := oc, doc_intelligence := intel2,
            layout_optimization := flagsLayout tpB esB cB aB tocF po } intel d
        = (Except.ok ((if tpB then create_intelligent_title_page intel d else []) ++ tocBlocks
            ++ (if esB then create_intelligent_executive_summary intel else []) ++ secBlocks
            ++ (if cB then (create_intelligent_conclusions o intel).1 else [])
            ++ (if aB then create_intelligent_appendix intel else [])),
           if cB then [OracleCall.recommendations] else []) := by
  obtain ⟨tocBlocks, htoc, htocne⟩ := toc_ok_of_wf oc hwf intel
  obtain ⟨secBlocks, hsec, hmem⟩ :=
    createSecsAux_ok_of_wf oc hwf ((po.getD {}).optimal_page_breaks.getD []) 0
  refine ⟨tocBlocks, secBlocks, htoc, htocne, ?_, hmem, ?_⟩
  · simp only [create_optimized_sections, flagsLayout]
    exact hsec
  · cases cB <;>
      simp [build_optimized_document, flagsLayout, getKey, exceptBindOk, htoc, hsec,
        create_optimized_sections, conclusions_calls, List.append_assoc]

theorem layout_fail_eq (o : Oracle) (h : o.layoutResponse = Except.error ())
    (optimized_content : List OptimizedSection) (intel : DocIntelligence) :
    (gpt5_layout_optimization o optimized_content intel).1
      = fallback_layout_optimization optimized_content intel := by
  unfold gpt5_layout_optimization
  split
  · rw [h]
  · rfl

theorem fallback_layout_flags (oc : List OptimizedSection) (intel : DocIntelligence) :
    fallback_layout_optimization oc intel
      = { optimized_content := oc, doc_intelligence := intel,
          layout_optimization :=
            flagsLayout true true true true (some { includeFlag := some true })
              (some { optimal_page_breaks := some [] }) } := rfl

theorem generate_pdf_result (o : Oracle) (sections : List (String × String))
    (styles0 : List String) (dateStr : String) :
    (generate_pdf o sections styles0 dateStr).result =
      match (build_optimized_document o
          (gpt5_layout_optimization o
            (gpt5_content_optimization o sections (gpt5_document_analysis o sections).1).1
            (gpt5_document_analysis o sections).1).1
          (gpt5_document_analysis o sections).1 dateStr).1 with
      | Except.ok story => Except.ok story
      | Except.error e => Except.error ("GPT-5 PDF generation failed: " ++ e) := rfl

theorem generate_pdf_calls (o : Oracle) (sections : List (String × String))
    (styles0 : List String) (dateStr : String) :
    (generate_pdf o sections styles0 dateStr).calls =
      (gpt5_document_analysis o sections).2
        ++ (gpt5_content_optimization o sections (gpt5_document_analysis o sections).1).2
        ++ (gpt5_layout_optimization o
            (gpt5_content_optimization o sections (gpt5_document_analysis o sections).1).1
            (gpt5_document_analysis o sections).1).2
        ++ (build_optimized_document o
            (gpt5_layout_optimization o
              (gpt5_content_optimization o sections (gpt5_document_analysis o sections).1).1
              (gpt5_document_analysis o sections).1).1
            (gpt5_document_analysis o sections).1 dateStr).2 := rfl

theorem all_wf_imp_header (l : List OptimizedSection) (h : l.all wellFormedOpt = true) :
    l.all (fun s => s.optimization.enhanced_header.isSome) = true := by
  rw [List.all_eq_true] at h ⊢
  intro s hs
  have := h s hs
  simp only [wellFormedOpt, Bool.and_eq_true] at this
  exact this.1

/-- What a successful per-section optimization loop returns: one optimized
section per in-range index of the order, in order, each carrying the
oracle's response, and one oracle call per in-range index. -/
theorem optimizeLoop_ok_spec (o : Oracle) (sections : List (String × String)) :
    ∀ (order : List Int) (opts : List OptimizedSection) (calls : List OracleCall),
      optimizeLoop o sections order = Except.ok (opts, calls) →
      opts.map OptimizedSection.original_index = order.filter (inRange sections.length)
      ∧ calls = (order.filter (inRange sections.length)).map OracleCall.sectionOpt
      ∧ opts.all (fun s => s.optimization.enhanced_header.isSome) = true
      ∧ ∀ s ∈ opts, o.sectionResponse s.original_index = Except.ok s.optimization := by
  intro order
  induction order with
  | nil =>
    intro opts calls h
    simp only [optimizeLoop, Except.ok.injEq, Prod.mk.injEq] at h
    obtain ⟨h1, h2⟩ := h
    subst h1; subst h2
    exact ⟨rfl, rfl, rfl, by simp⟩
  | cons i rest ih =>
    intro opts calls h
    by_cases hskip : i ≥ Int.ofNat sections.length
    · simp only [optimizeLoop, if_pos hskip] at h
      obtain ⟨h1, h2, h3, h4⟩ := ih opts calls h
      have hf : ¬ (inRange sections.length i = true) := by
        simp only [inRange, decide_eq_true_eq]
        exact Int.not_lt.mpr hskip
      refine ⟨?_, ?_, h3, h4⟩
      · rw [List.filter_cons_of_neg hf]
        exact h1
      · rw [List.filter_cons_of_neg hf]
        exact h2
    · simp only [optimizeLoop, if_neg hskip] at h
      cases hpi : pyIndex sections i with
      | none => simp [hpi] at h
      | some p =>
        obtain ⟨hd, cont⟩ := p
        simp only [hpi] at h
        cases hresp : o.sectionResponse i with
        | error e => simp [hresp] at h
        | ok opt =>
          simp only [hresp] at h
          cases hehh : opt.enhanced_header with
          | none => simp [hehh] at h
          | some eh =>
            simp only [hehh] at h
            cases hrec : optimizeLoop o sections rest with
            | error cs => simp [hrec] at h
            | ok pr =>
              obtain ⟨opts', calls'⟩ := pr
              simp only [hrec, Except.ok.injEq, Prod.mk.injEq] at h
              obtain ⟨h1, h2⟩ := h
              subst h1; subst h2
              obtain ⟨g1, g2, g3, g4⟩ := ih opts' calls' hrec
              have ht : inRange sections.length i = true := by
                simp only [inRange, decide_eq_true_eq]
                exact Int.not_le.mp hskip
              refine ⟨?_, ?_, ?_, ?_⟩
              · rw [List.filter_cons_of_pos ht, List.map_cons, g1]
              · rw [List.filter_cons_of_pos ht, List.map_cons, g2]
              · simp [List.all_cons, g3, hehh]
              · intro s hs
                rcases List.mem_cons.mp hs with rfl | hs'
                · simpa using hresp
                · exact g4 s hs'

/-- When every per-section oracle call fails, the optimization loop either
finishes without having found an in-range index (empty result, no calls) or
aborts with an exception. -/
theorem optimizeLoop_sections_fail (o : Oracle) (sections : List (String × String))
    (h : ∀ i, o.sectionResponse i = Except.error ()) :
    ∀ order, optimizeLoop o sections order = Except.ok ([], [])
      ∨ ∃ cs, optimizeLoop o sections order = Except.error cs := by
  intro order
  induction order with
  | nil => left; rfl
  | cons i rest ih =>
    by_cases hskip : i ≥ Int.ofNat sections.length
    · simp only [optimizeLoop, if_pos hskip]
      exact ih
    · right
      simp only [optimizeLoop, if_neg hskip]
      cases hpi : pyIndex sections i with
      | none => exact ⟨[], by simp [hpi]⟩
      | some p =>
        obtain ⟨hd, cont⟩ := p
        exact ⟨[OracleCall.sectionOpt i], by simp [hpi, h i]⟩

/-- When every per-section oracle call succeeds with an enhanced header and
the order holds no negative index, the optimization loop succeeds. -/
theorem optimizeLoop_ok_of_good (o : Oracle) (sections : List (String × String))
    (hok : ∀ i, ∃ opt, o.sectionResponse i = Except.ok opt ∧ opt.enhanced_header.isSome) :
    ∀ order, (∀ i ∈ order, 0 ≤ i) →
      ∃ r, optimizeLoop o sections order = Except.ok r := by
  intro order
  induction order with
  | nil => intro _; exact ⟨([], []), rfl⟩
  | cons i rest ih =>
    intro hnn
    obtain ⟨⟨opts', calls'⟩, hr⟩ := ih fun j hj => hnn j (List.mem_cons_of_mem _ hj)
    by_cases hskip : i ≥ Int.ofNat sections.length
    · exact ⟨(opts', calls'), by simp only [optimizeLoop, if_pos hskip]; exact hr⟩
    · have h0 : 0 ≤ i := hnn i (List.mem_cons_self _ _)
      have hlt : i < Int.ofNat sections.length := Int.not_le.mp hskip
      obtain ⟨k, rfl⟩ : ∃ k : Nat, i = Int.ofNat k :=
        ⟨i.toNat, (Int.toNat_of_nonneg h0).symm⟩
      have hk : k < sections.length := Int.ofNat_lt.mp hlt
      have hpi : pyIndex sections (Int.ofNat k) = sections.get? k := by
        simp [pyIndex]
      have hsec := List.get?_eq_get hk
      obtain ⟨opt, hresp, hh⟩ := hok (Int.ofNat k)
      obtain ⟨eh, heh⟩ := Option.isSome_iff_exists.mp hh
      refine ⟨({ original_index := Int.ofNat k,
                 original_header := (sections.get ⟨k, hk⟩).1,
                 original_content := (sections.get ⟨k, hk⟩).2,
                 optimization := opt } :: opts',
               OracleCall.sectionOpt (Int.ofNat k) :: calls'), ?_⟩
      simp only [optimizeLoop, if_neg hskip, hpi, hsec, hresp, heh, hr]

/-- Whatever the oracle does, every optimized section surviving phase 2 has
an enhanced header (the oracle path checks it, the fallback supplies it). -/
theorem phase2_all_header (o : Oracle) (sections : List (String × String))
    (intel : DocIntelligence) :
    ((gpt5_content_optimization o sections intel).1).all
      (fun s => s.optimization.enhanced_header.isSome) = true := by
  unfold gpt5_content_optimization
  cases hres : optimizeLoop o sections (getOptimalOrder intel sections.length) with
  | ok r =>
    obtain ⟨opts, calls⟩ := r
    exact (optimizeLoop_ok_spec o sections _ opts calls hres).2.2.1
  | error cs =>
    exact all_wf_imp_header _ (fallbackAux_all_wf sections 0)

/-- On a non-empty section list with no explicit section order, the
per-section phase of the all-failing oracle aborts at the first index and
returns the deterministic fallback. -/
theorem gpt5_content_failOracle_cons (hd : String × String)
    (tl : List (String × String)) (intel : DocIntelligence)
    (hso : intel.structure_optimization = none) :
    gpt5_content_optimization failOracle (hd :: tl) intel
      = (fallback_content_optimization (hd :: tl), [OracleCall.sectionOpt 0]) := by
  have hpos : Int.ofNat 0 < Int.ofNat (hd :: tl).length :=
    Int.ofNat_lt.mpr (Nat.succ_pos tl.length)
  have hloop : optimizeLoop failOracle (hd :: tl)
      ((List.range (hd :: tl).length).map Int.ofNat)
      = Except.error [OracleCall.sectionOpt 0] := by
    have hrange : (List.range (hd :: tl).length).map Int.ofNat
        = (Int.ofNat 0) :: ((List.range tl.length).map (Int.ofNat ∘ Nat.succ)) := by
      simp [List.length_cons, List.range_succ_eq_map, List.map_map]
    rw [hrange]
    simp only [optimizeLoop]
    rw [if_neg (not_le.mpr hpos)]
    rfl
  unfold gpt5_content_optimization
  rw [show getOptimalOrder intel (hd :: tl).length
      = (List.range (hd :: tl).length).map Int.ofNat from by
    simp [getOptimalOrder, hso], hloop]

/-- Claim C1: on a non-empty section list, `generate_pdf` with an oracle
that fails on every call still assembles a non-empty story: each phase
falls back, and assembly over the fallback values succeeds. -/
theorem c1_generate_pdf_total_failure_nonempty (sections : List (String × String))
    (hne : sections ≠ []) (styles0 : List String) (dateStr : String) :
    ∃ story, (generate_pdf failOracle sections styles0 dateStr).result = Except.ok story
      ∧ story ≠ [] := by
  obtain ⟨hd, tl, rfl⟩ := List.exists_cons_of_ne_nil hne
  have h2 := gpt5_content_failOracle_cons hd tl (fallback_analysis (hd :: tl)) rfl
  have h3 : (gpt5_layout_optimization failOracle (fallback_content_optimization (hd :: tl))
      (fallback_analysis (hd :: tl))).1
      = fallback_layout_optimization (fallback_content_optimization (hd :: tl))
          (fallback_analysis (hd :: tl)) :=
    layout_fail_eq failOracle rfl _ _
  obtain ⟨tocB, secB, htoc, htocne, hsec, hmem0, hbuild⟩ :=
    build_eq_of_flags failOracle (fallback_content_optimization (hd :: tl))
      (fallback_analysis (hd :: tl)) (fallback_analysis (hd :: tl)) dateStr
      true true true true (some { includeFlag := some true })
      (some { optimal_page_breaks := some [] })
      (fallbackAux_all_wf (hd :: tl) 0)
  rw [generate_pdf_result]
  rw [show (gpt5_document_analysis failOracle (hd :: tl)).1
      = fallback_analysis (hd :: tl) from rfl]
  rw [show (gpt5_content_optimization failOracle (hd :: tl)
        (fallback_analysis (hd :: tl))).1
      = fallback_content_optimization (hd :: tl) from congrArg Prod.fst h2]
  rw [h3, fallback_layout_flags, hbuild]
  refine ⟨_, rfl, ?_⟩
  intro habs
  simp only [if_pos trivial, List.append_eq_nil] at habs
  exact htocne habs.1.1.1.1.2

/-- Claim C1, witness: the theorem applied to a concrete one-section list. -/
theorem c1_witness :
    ∃ story, (generate_pdf failOracle [("Intro", "Body")] [] "May 2025").result
        = Except.ok story ∧ story ≠ [] :=
  c1_generate_pdf_total_failure_nonempty [("Intro", "Body")] (by decide) [] "May 2025"

/-- Claim C2, counterexample: a layout-oracle response that parses as a
mapping but lacks the `document_flow` key makes `generate_pdf` raise the
wrapped assembly `KeyError`, although final rendering never ran. -/
theorem c2_counterexample :
    (generate_pdf c2Oracle [("Intro", "Body")] [] "May 2025").result
      = Except.error "GPT-5 PDF generation failed: KeyError: document_flow" := by
  rfl

theorem generate_ok_of_layout_fail (o : Oracle) (sections : List (String × String))
    (styles0 : List String) (dateStr : String)
    (hlay : o.layoutResponse = Except.error ())
    (hwf : ((gpt5_content_optimization o sections
        (gpt5_document_analysis o sections).1).1).all wellFormedOpt = true) :
    ∃ story, (generate_pdf o sections styles0 dateStr).result = Except.ok story := by
  rw [generate_pdf_result]
  rw [layout_fail_eq o hlay _ _, fallback_layout_flags]
  obtain ⟨tocB, secB, _, _, _, _, hbuild⟩ :=
    build_eq_of_flags o
      (gpt5_content_optimization o sections (gpt5_document_analysis o sections).1).1
      (gpt5_document_analysis o sections).1 (gpt5_document_analysis o sections).1 dateStr
      true true true true (some { includeFlag := some true })
      (some { optimal_page_breaks := some [] }) hwf
  rw [hbuild]
  exact ⟨_, rfl⟩

/-- Claim C2 (amended): the phase boundaries absorb oracle call failures
(unparseable payloads), but a layout response that parses as a mapping while
missing the `document_flow` key reaches assembly, whose strict key accesses
raise a `KeyError` that `generate_pdf` wraps and surfaces to the caller even
though final rendering never failed; when the layout call itself fails (and
the per-section calls fail too) the fallback plan is used and generation
succeeds. -/
theorem c2_missing_layout_keys_raise :
    (∀ (o : Oracle) (sections : List (String × String)) (styles0 : List String)
        (dateStr : String) (lo : LayoutOptimization),
        o.layoutResponse = Except.ok lo → lo.document_flow = none →
        (generate_pdf o sections styles0 dateStr).result
          = Except.error "GPT-5 PDF generation failed: KeyError: document_flow")
  ∧ (∀ (o : Oracle) (sections : List (String × String)) (styles0 : List String)
        (dateStr : String),
        o.layoutResponse = Except.error () →
        (∀ i, o.sectionResponse i = Except.error ()) →
        ∃ story, (generate_pdf o sections styles0 dateStr).result = Except.ok story) := by
  constructor
  · intro o sections styles0 dateStr lo hlo hdf
    rw [generate_pdf_result]
    have hall := phase2_all_header o sections (gpt5_document_analysis o sections).1
    have h3 : (gpt5_layout_optimization o
        (gpt5_content_optimization o sections (gpt5_document_analysis o sections).1).1
        (gpt5_document_analysis o sections).1).1
        = { optimized_content :=
              (gpt5_content_optimization o sections (gpt5_document_analysis o sections).1).1,
            doc_intelligence := (gpt5_document_analysis o sections).1,
            layout_optimization := lo } := by
      unfold gpt5_layout_optimization
      rw [if_pos hall, hlo]
    rw [h3]
    have hb : build_optimized_document o
        { optimized_content :=
            (gpt5_content_optimization o sections (gpt5_document_analysis o sections).1).1,
          doc_intelligence := (gpt5_document_analysis o sections).1,
          layout_optimization := lo }
        (gpt5_document_analysis o sections).1 dateStr
        = (Except.error "KeyError: document_flow", []) := by
      simp only [build_optimized_document, hdf, getKey, exceptBindErr]
      rfl
    rw [hb]
    rfl
  · intro o sections styles0 dateStr hlay hsec
    apply generate_ok_of_layout_fail o sections styles0 dateStr hlay
    unfold gpt5_content_optimization
    rcases optimizeLoop_sections_fail o sections hsec
        (getOptimalOrder (gpt5_document_analysis o sections).1 sections.length)
      with h | ⟨cs, h⟩
    · rw [h]
      rfl
    · rw [h]
      exact fallbackAux_all_wf sections 0

/-- Claim C2, witness: the amended theorem applied to a concrete empty
layout mapping (wrapped KeyError surfaced) and to the all-failing oracle
(generation succeeds). -/
theorem c2_witness :
    (generate_pdf c2Oracle [("H", "C")] [] "June 2025").result
      = Except.error "GPT-5 PDF generation failed: KeyError: document_flow"
  ∧ ∃ story, (generate_pdf failOracle [("H", "C")] [] "June 2025").result
      = Except.ok story :=
  ⟨c2_missing_layout_keys_raise.1 c2Oracle [("H", "C")] [] "June 2025" {} rfl rfl,
   c2_missing_layout_keys_raise.2 failOracle [("H", "C")] [] "June 2025" rfl fun _ => rfl⟩

/-- Claim C3, counterexample: `optimal_section_order = [2, 5, 0]` over a
three-section list keeps TWO sections (original indices 2 then 0), because
index 2 is in range for a 3-section list; only 5 is skipped.  The claim's
expected single-element result (index 0 only) is wrong. -/
theorem c3_counterexample :
    ((gpt5_content_optimization okSectionOracle
        [("H0", "C0"), ("H1", "C1"), ("H2", "C2")]
        { structure_optimization :=
            some { optimal_section_order := some [2, 5, 0] } }).1.map
        OptimizedSection.original_index = [2, 0])
  ∧ (gpt5_content_optimization okSectionOracle
        [("H0", "C0"), ("H1", "C1"), ("H2", "C2")]
        { structure_optimization :=
            some { optimal_section_order := some [2, 5, 0] } }).1.length ≠ 1 := by
  decide

/-- Claim C3 (amended): the reorderer silently skips exactly the indices at
least the section count: when every per-section call succeeds with an
enhanced header and the order has no negative entry, the OptimizedSections
carry, in order, precisely the in-range entries of `optimal_section_order`;
in particular `[2, 5, 0]` over three sections drops only 5, leaving two
sections with original indices 2 then 0. -/
theorem c3_out_of_range_skipped (o : Oracle) (sections : List (String × String))
    (intel : DocIntelligence) (order : List Int)
    (hord : intel.structure_optimization = some { optimal_section_order := some order })
    (hnn : ∀ i ∈ order, 0 ≤ i)
    (hok : ∀ i, ∃ opt, o.sectionResponse i = Except.ok opt ∧ opt.enhanced_header.isSome) :
    (gpt5_content_optimization o sections intel).1.map OptimizedSection.original_index
      = order.filter (inRange sections.length) := by
  unfold gpt5_content_optimization
  have horder : getOptimalOrder intel sections.length = order := by
    simp [getOptimalOrder, hord]
  rw [horder]
  obtain ⟨⟨opts, calls⟩, hr⟩ := optimizeLoop_ok_of_good o sections hok order hnn
  rw [hr]
  exact (optimizeLoop_ok_spec o sections order opts calls hr).1

/-- Claim C3, witness: the amended theorem applied to the order `[1, 7]`
over a three-section list: 7 is skipped, index 1 survives. -/
theorem c3_witness :
    (gpt5_content_optimization okSectionOracle [("A", "a"), ("B", "b"), ("C", "c")]
        { structure_optimization := some { optimal_section_order := some [1, 7] } }).1.map
        OptimizedSection.original_index = [1] := by
  have h := c3_out_of_range_skipped okSectionOracle [("A", "a"), ("B", "b"), ("C", "c")]
    { structure_optimization := some { optimal_section_order := some [1, 7] } } [1, 7]
    rfl (by decide)
    (fun _ => ⟨{ enhanced_header := some "Enhanced", content_structure := some {} },
      rfl, rfl⟩)
  rw [h]
  decide

/-- Claim C4, counterexample: an `optimal_section_order` that is present but
EMPTY yields an empty OptimizedSection list — not the identity ordering
with one OptimizedSection per original section. -/
theorem c4_counterexample :
    ((gpt5_content_optimization okSectionOracle [("H", "C")]
        { structure_optimization := some { optimal_section_order := some [] } }).1 = [])
  ∧ (gpt5_content_optimization okSectionOracle [("H", "C")]
        { structure_optimization := some { optimal_section_order := some [] } }).1.length
      ≠ ([("H", "C")] : List (String × String)).length := by
  decide

/-- Claim C4 (amended): when `optimal_section_order` is ABSENT the reorderer
falls back to identity ordering `[0..n-1]` (one OptimizedSection per section
in original order, whatever the oracle does); when the field is present but
empty the result is the empty list, with no identity fallback. -/
theorem c4_absent_order_identity (o : Oracle) (sections : List (String × String))
    (intel : DocIntelligence)
    (habs : intel.structure_optimization.bind StructureOptimization.optimal_section_order
      = none) :
    ((gpt5_content_optimization o sections intel).1.map OptimizedSection.original_index
        = (List.range sections.length).map Int.ofNat)
  ∧ (∀ intel2 : DocIntelligence,
      intel2.structure_optimization.bind StructureOptimization.optimal_section_order
        = some [] →
      (gpt5_content_optimization o sections intel2).1 = []) := by
  constructor
  · unfold gpt5_content_optimization
    have horder : getOptimalOrder intel sections.length
        = (List.range sections.length).map Int.ofNat := by
      unfold getOptimalOrder
      cases hso : intel.structure_optimization with
      | none => rfl
      | some so =>
        cases hord : so.optimal_section_order with
        | none => simp [hord]
        | some l =>
          rw [hso] at habs
          simp [hord] at habs
    rw [horder]
    cases hres : optimizeLoop o sections ((List.range sections.length).map Int.ofNat) with
    | ok r =>
      obtain ⟨opts, calls⟩ := r
      have h := (optimizeLoop_ok_spec o sections _ opts calls hres).1
      have hfil : ((List.range sections.length).map Int.ofNat).filter
          (inRange sections.length) = (List.range sections.length).map Int.ofNat := by
        apply List.filter_eq_self.mpr
        intro a ha
        simp only [List.mem_map] at ha
        obtain ⟨k, hk, rfl⟩ := ha
        simp only [inRange, decide_eq_true_eq]
        exact Int.ofNat_lt.mpr (List.mem_range.mp hk)
      exact h.trans hfil
    | error cs =>
      rw [List.range_eq_range']
      exact fallbackAux_map_index sections 0
  · intro intel2 h2
    unfold gpt5_content_optimization
    have horder : getOptimalOrder intel2 sections.length = [] := by
      unfold getOptimalOrder
      cases hso : intel2.structure_optimization with
      | none => simp [hso] at h2
      | some so =>
        cases hord : so.optimal_section_order with
        | none =>
          rw [hso] at h2
          simp [hord] at h2
        | some l =>
          rw [hso] at h2
          simp [hord] at h2
          simp [hord, h2]
    rw [horder]
    rfl

/-- Claim C4, witness: absent order over one section gives identity `[0]`;
an explicitly empty order gives the empty result. -/
theorem c4_witness :
    ((gpt5_content_optimization failOracle [("H", "C")] {}).1.map
        OptimizedSection.original_index = [Int.ofNat 0])
  ∧ (gpt5_content_optimization failOracle [("X", "y")]
      { structure_optimization := some { optimal_section_order := some [] } }).1 = [] := by
  constructor
  · rw [(c4_absent_order_identity failOracle [("H", "C")] {} rfl).1]
    decide
  · exact (c4_absent_order_identity failOracle [("X", "y")] {} rfl).2
      { structure_optimization := some { optimal_section_order := some [] } } rfl

/-- Claim C5, counterexample: a layout plan whose `table_of_contents`
inclusion flag is `false` still gets a Table of Contents block — the TOC is
assembled unconditionally, so inclusion is not equivalent to the flag. -/
theorem c5_counterexample :
    Block.para "SectionHeader" "Table of Contents" ∈
      ((build_optimized_document failOracle
          { optimized_content := []
            doc_intelligence := {}
            layout_optimization := flagsLayout true true true true
              (some { includeFlag := some false })
              (some { optimal_page_breaks := some [] }) }
          {} "July 2025").1.toOption.getD []) := by
  decide

/-- Claim C5 (amended): title page, executive summary, conclusions and
appendix are each included iff their `include` flag is true, but the flag
chains are read strictly — an absent flag raises a `KeyError` instead of
defaulting to inclusion — and the table of contents is always included,
whatever its flag says. -/
theorem c5_structural_flag_gating :
    (∀ (o : Oracle) (oc : List OptimizedSection) (intel intel2 : DocIntelligence)
        (d : String) (tpB esB cB aB : Bool) (tocF : Option FlagBlock)
        (po : Option PageOptimization), oc.all wellFormedOpt = true →
        ∃ tocBlocks secBlocks,
          create_intelligent_toc oc intel = Except.ok tocBlocks ∧ tocBlocks ≠ [] ∧
          create_optimized_sections oc (flagsLayout tpB esB cB aB tocF po)
            = Except.ok secBlocks ∧
          (build_optimized_document o
              { optimized_content := oc, doc_intelligence := intel2,
                layout_optimization := flagsLayout tpB esB cB aB tocF po } intel d).1
            = Except.ok ((if tpB then create_intelligent_title_page intel d else [])
                ++ tocBlocks
                ++ (if esB then create_intelligent_executive_summary intel else [])
                ++ secBlocks
                ++ (if cB then (create_intelligent_conclusions o intel).1 else [])
                ++ (if aB then create_intelligent_appendix intel else [])))
  ∧ (∀ (o : Oracle) (oc : List OptimizedSection) (intel intel2 : DocIntelligence)
        (d : String) (lo : LayoutOptimization) (df : DocumentFlow),
        lo.document_flow = some df → df.title_page = some { includeFlag := none } →
        (build_optimized_document o
            { optimized_content := oc, doc_intelligence := intel2,
              layout_optimization := lo } intel d).1
          = Except.error "KeyError: include") := by
  constructor
  · intro o oc intel intel2 d tpB esB cB aB tocF po hwf
    obtain ⟨tocB, secB, htoc, htocne, hsec, _, hbuild⟩ :=
      build_eq_of_flags o oc intel intel2 d tpB esB cB aB tocF po hwf
    exact ⟨tocB, secB, htoc, htocne, hsec, by rw [hbuild]⟩
  · intro o oc intel intel2 d lo df hdf htp
    simp only [build_optimized_document, hdf, htp, getKey, exceptBindOk, exceptBindErr]
    rfl

/-- Claim C5, witness: with all four gated flags false the story still holds
the (non-empty) TOC blocks; a present `title_page` object without its
`include` key makes assembly fail with the include KeyError. -/
theorem c5_witness :
    (∃ story, (build_optimized_document failOracle
        { optimized_content := [], doc_intelligence := {},
          layout_optimization := flagsLayout false false false false none none }
        {} "D").1 = Except.ok story ∧ story ≠ [])
  ∧ (build_optimized_document failOracle
        { optimized_content := [], doc_intelligence := {},
          layout_optimization :=
            { document_flow := some { title_page := some { includeFlag := none } } } }
        {} "D").1 = Except.error "KeyError: include" := by
  constructor
  · obtain ⟨tocB, secB, htoc, htocne, hsec, hbuild⟩ :=
      c5_structural_flag_gating.1 failOracle [] {} {} "D" false false false false
        none none rfl
    refine ⟨_, hbuild, ?_⟩
    intro habs
    simp only [List.append_eq_nil] at habs
    exact htocne habs.1.1.1.1.2
  · exact c5_structural_flag_gating.2 failOracle [] {} {} "D"
      { document_flow := some { title_page := some { includeFlag := none } } }
      { title_page := some { includeFlag := none } } rfl rfl

/-- Claim C7, counterexample: in a fully successful one-section run the
oracle is called FOUR times — analysis, one per-section optimization,
layout, and a fourth recommendations call made while assembling the
conclusions block — so the claimed exhaustive list of calls is wrong. -/
theorem c7_counterexample :
    ((generate_pdf c7Oracle [("H", "C")] [] "May 2025").calls
      = [OracleCall.analysis, OracleCall.sectionOpt 0, OracleCall.layout,
         OracleCall.recommendations])
  ∧ OracleCall.recommendations ∈ (generate_pdf c7Oracle [("H", "C")] [] "May 2025").calls := by
  decide

/-- Claim C7 (amended): in a run where analysis succeeds (with a title),
every per-section call succeeds with a well-formed optimization, and the
layout call succeeds with a full flag set whose conclusions flag is true,
the oracle calls are exactly: one analysis, one per surviving (in-range)
entry of the section order, one layout, and one recommendations call from
the conclusions builder; no phase retries after a failure. -/
theorem c7_oracle_call_trace (o : Oracle) (sections : List (String × String))
    (styles0 : List String) (d : String) (intel : DocIntelligence) (dm : DocumentMeta)
    (order : List Int) (tocF : Option FlagBlock) (po : Option PageOptimization)
    (ha : o.analysisResponse = Except.ok intel)
    (hdm : intel.document_meta = some dm)
    (ht : dm.title.isSome = true)
    (hord : intel.structure_optimization = some { optimal_section_order := some order })
    (hnn : ∀ i ∈ order, 0 ≤ i)
    (hsec : ∀ i, ∃ opt, o.sectionResponse i = Except.ok opt
      ∧ opt.enhanced_header.isSome ∧ opt.content_structure.isSome)
    (hlay : o.layoutResponse = Except.ok (flagsLayout true true true true tocF po)) :
    (generate_pdf o sections styles0 d).calls
      = OracleCall.analysis
          :: ((order.filter (inRange sections.length)).map OracleCall.sectionOpt
            ++ [OracleCall.layout, OracleCall.recommendations]) := by
  have h1 : gpt5_document_analysis o sections = (intel, [OracleCall.analysis]) := by
    unfold gpt5_document_analysis
    obtain ⟨t, htt⟩ := Option.isSome_iff_exists.mp ht
    simp only [ha, hdm, htt]
  have hgood : ∀ i, ∃ opt, o.sectionResponse i = Except.ok opt
      ∧ opt.enhanced_header.isSome :=
    fun i => (hsec i).imp fun opt hh => ⟨hh.1, hh.2.1⟩
  obtain ⟨⟨opts, calls⟩, hr⟩ := optimizeLoop_ok_of_good o sections hgood order hnn
  obtain ⟨hidx, hcalls, hallh, hresp⟩ := optimizeLoop_ok_spec o sections order opts calls hr
  have h2 : gpt5_content_optimization o sections intel = (opts, calls) := by
    unfold gpt5_content_optimization
    rw [show getOptimalOrder intel sections.length = order from by
      simp [getOptimalOrder, hord], hr]
  have h3 : gpt5_layout_optimization o opts intel
      = ({ optimized_content := opts, doc_intelligence := intel,
           layout_optimization := flagsLayout true true true true tocF po },
         [OracleCall.layout]) := by
    unfold gpt5_layout_optimization
    rw [if_pos hallh, hlay]
  have hwf : opts.all wellFormedOpt = true := by
    rw [List.all_eq_true]
    intro s hs
    obtain ⟨opt, hresp', hh, hcs⟩ := hsec s.original_index
    have hthis := hresp s hs
    rw [hresp'] at hthis
    injection hthis with heq
    rw [wellFormedOpt, ← heq]
    simp [hh, hcs]
  obtain ⟨tocB, secB, htoc, htocne, hsecB, _, hbuild⟩ :=
    build_eq_of_flags o opts intel intel d true true true true tocF po hwf
  rw [generate_pdf_calls]
  simp only [h1, h2, h3, hbuild, hcalls]
  simp

/-- Claim C7, witness: the amended theorem applied to a two-section run
whose analysis returns the order `[1, 5, 0]`: calls are analysis, the two
in-range section optimizations (1 then 0), layout, recommendations. -/
theorem c7_witness :
    (generate_pdf c7wOracle [("A", "a"), ("B", "b")] [] "D").calls
      = [OracleCall.analysis, OracleCall.sectionOpt 1, OracleCall.sectionOpt 0,
         OracleCall.layout, OracleCall.recommendations] := by
  rw [c7_oracle_call_trace c7wOracle [("A", "a"), ("B", "b")] [] "D" c7wIntel
    { title := some "T" } [1, 5, 0]
    (some { includeFlag := some true }) (some { optimal_page_breaks := some [] })
    rfl rfl rfl rfl (by decide)
    (fun _ => ⟨{ enhanced_header := some "EH", content_structure := some {} },
      rfl, rfl, rfl⟩)
    rfl]
  decide

theorem sectionBlocks_scrub (s : OptimizedSection) :
    sectionBlocks (scrubContent s) = sectionBlocks s := rfl

theorem tocEntriesAux_scrub (l : List OptimizedSection) :
    ∀ p, tocEntriesAux p (l.map scrubContent) = tocEntriesAux p l := by
  induction l with
  | nil => intro p; rfl
  | cons s rest ih =>
    intro p
    simp only [List.map_cons, tocEntriesAux, ih (p + 2), scrubContent]

theorem createSecsAux_scrub (l : List OptimizedSection) :
    ∀ pb i, createOptimizedSectionsAux pb i (l.map scrubContent)
      = createOptimizedSectionsAux pb i l := by
  induction l with
  | nil => intro pb i; rfl
  | cons s rest ih =>
    intro pb i
    simp only [List.map_cons, createOptimizedSectionsAux, sectionBlocks_scrub, ih pb (i + 1)]

/-- Document assembly never reads the stored original content: erasing it
from every optimized section leaves the build unchanged. -/
theorem build_scrub (o : Oracle) (oc : List OptimizedSection)
    (i2 intel : DocIntelligence) (lo : LayoutOptimization) (d : String) :
    build_optimized_document o
        { optimized_content := oc.map scrubContent, doc_intelligence := i2,
          layout_optimization := lo } intel d
      = build_optimized_document o
        { optimized_content := oc, doc_intelligence := i2,
          layout_optimization := lo } intel d := by
  simp only [build_optimized_document, create_intelligent_toc, create_optimized_sections,
    tocEntriesAux_scrub, createSecsAux_scrub]

theorem fallbackAux_mem_header (l : List (String × String)) :
    ∀ (i : Nat) (h c : String), (h, c) ∈ l →
      ∃ s ∈ fallbackContentOptimizationAux i l,
        s.optimization.enhanced_header = some h := by
  induction l with
  | nil => intro i h c hm; exact absurd hm (List.not_mem_nil _)
  | cons p rest ih =>
    intro i h c hm
    obtain ⟨ph, pc⟩ := p
    rcases List.mem_cons.mp hm with heq | hm'
    · injection heq with h1 h2
      subst h1
      exact ⟨_, List.mem_cons_self _ _, rfl⟩
    · obtain ⟨s, hs, hh⟩ := ih (i + 1) h c hm'
      exact ⟨s, List.mem_cons_of_mem _ hs, hh⟩

/-- Claim C10: under total oracle failure the fallback stores every
section's original content verbatim in its OptimizedSection, yet no render
block of the assembled story carries it: the assembled result is unchanged
when every content string is erased (it depends only on the headers), while
every original header appears as a section-header paragraph. -/
theorem c10_fallback_content_never_rendered (sections : List (String × String))
    (styles0 : List String) (dateStr : String) :
    ((gpt5_content_optimization failOracle sections
        (gpt5_document_analysis failOracle sections).1).1.map
        OptimizedSection.original_content = sections.map Prod.snd)
  ∧ ((generate_pdf failOracle sections styles0 dateStr).result
      = (generate_pdf failOracle (sections.map fun s => (s.1, "")) styles0 dateStr).result)
  ∧ (∀ sec ∈ sections, ∀ story,
      (generate_pdf failOracle sections styles0 dateStr).result = Except.ok story →
      Block.para "SectionHeader" sec.1 ∈ story) := by
  refine ⟨?_, ?_, ?_⟩
  · cases sections with
    | nil => rfl
    | cons hd tl =>
      rw [congrArg Prod.fst (gpt5_content_failOracle_cons hd tl
        (gpt5_document_analysis failOracle (hd :: tl)).1 rfl)]
      exact fallbackAux_map_content (hd :: tl) 0
  · cases sections with
    | nil => rfl
    | cons hd tl =>
      rw [generate_pdf_result, generate_pdf_result]
      rw [show (gpt5_document_analysis failOracle (hd :: tl)).1
          = fallback_analysis (hd :: tl) from rfl]
      rw [show (gpt5_document_analysis failOracle
          ((hd :: tl).map fun s => (s.1, ""))).1 = fallback_analysis (hd :: tl) from rfl]
      rw [show ((hd :: tl).map fun s => (s.1, ""))
          = ((hd.1, "") :: tl.map fun s => (s.1, "")) from rfl]
      rw [congrArg Prod.fst (gpt5_content_failOracle_cons hd tl
        (fallback_analysis (hd :: tl)) rfl)]
      rw [congrArg Prod.fst (gpt5_content_failOracle_cons (hd.1, "")
        (tl.map fun s => (s.1, "")) (fallback_analysis (hd :: tl)) rfl)]
      rw [show fallback_content_optimization ((hd.1, "") :: tl.map fun s => (s.1, ""))
          = (fallback_content_optimization (hd :: tl)).map scrubContent from
        fallbackAux_scrub (hd :: tl) 0]
      rw [layout_fail_eq failOracle rfl ((fallback_content_optimization
        (hd :: tl)).map scrubContent) (fallback_analysis (hd :: tl))]
      rw [layout_fail_eq failOracle rfl (fallback_content_optimization (hd :: tl))
        (fallback_analysis (hd :: tl))]
      rw [fallback_layout_flags, fallback_layout_flags]
      rw [build_scrub]
  · intro sec hsec story hstory
    cases sections with
    | nil => exact absurd hsec (List.not_mem_nil _)
    | cons hd tl =>
      have h2 := gpt5_content_failOracle_cons hd tl (fallback_analysis (hd :: tl)) rfl
      obtain ⟨tocB, secB, htoc, htocne, hsecB, hmem, hbuild⟩ :=
        build_eq_of_flags failOracle (fallback_content_optimization (hd :: tl))
          (fallback_analysis (hd :: tl)) (fallback_analysis (hd :: tl)) dateStr
          true true true true (some { includeFlag := some true })
          (some { optimal_page_breaks := some [] })
          (fallbackAux_all_wf (hd :: tl) 0)
      rw [generate_pdf_result] at hstory
      rw [show (gpt5_document_analysis failOracle (hd :: tl)).1
          = fallback_analysis (hd :: tl) from rfl] at hstory
      rw [congrArg Prod.fst h2] at hstory
      rw [layout_fail_eq failOracle rfl _ _, fallback_layout_flags, hbuild] at hstory
      simp only [Except.ok.injEq] at hstory
      obtain ⟨s, hsIn, hsh⟩ :=
        fallbackAux_mem_header (hd :: tl) 0 sec.1 sec.2 (by simpa using hsec)
      have hpara := hmem s hsIn sec.1 hsh
      rw [← hstory]
      simp only [List.mem_append]
      simp [hpara]

/-- Claim C10, witness: the theorem applied to a concrete section list —
the stored contents are the originals, and erasing the body text leaves the
generated result unchanged. -/
theorem c10_witness :
    ((gpt5_content_optimization failOracle [("Alpha", "BodyText")]
        (gpt5_document_analysis failOracle [("Alpha", "BodyText")]).1).1.map
        OptimizedSection.original_content = [("Alpha", "BodyText")].map Prod.snd)
  ∧ ((generate_pdf failOracle [("Alpha", "BodyText")] [] "D").result
      = (generate_pdf failOracle
          ([("Alpha", "BodyText")].map fun s => (s.1, "")) [] "D").result) :=
  ⟨(c10_fallback_content_never_rendered [("Alpha", "BodyText")] [] "D").1,
   (c10_fallback_content_never_rendered [("Alpha", "BodyText")] [] "D").2.1⟩

end PdfGen
